import Mathlib

/-!
# Verification of the HiveMind-PTT capture core (`mycroft_ptt/speech/mic.py`)

Shallow embedding of the mutable capture stream, the microphone lifecycle
manager and the adaptive phrase-endpointing recorder, together with proofs
about their behaviour.

Conventions of the embedding:
* byte strings are `List Nat` (one entry per byte);
* real-valued quantities (energies, thresholds, noise level, durations)
  are rationals (`ℚ`), mirroring Python floats without rounding;
* external collaborators (the PyAudio device, the `audioop.rms` energy
  computation, the file-based signal channel, the message bus) are
  parameters of the functions that consult them;
* Python `int(x)` (truncation toward zero) is `int_trunc`.
-/

namespace MicModel

/-- A byte string: the model of Python `bytes`. -/
abbrev Bytes := List Nat

/-- `get_silence(num_bytes)` returns `b'\x00' * num_bytes`
(mic.py lines 171-172). -/
def get_silence (num_bytes : Nat) : Bytes :=
  List.replicate num_bytes 0

/-- Python `int(x)` on a rational: truncation toward zero.  With
`x = num/den` in lowest terms and `den > 0`, this is `num/den` in
natural-number division for `x ≥ 0` and its negation mirrored for
`x < 0`. -/
def int_trunc (x : ℚ) : ℤ :=
  if 0 ≤ x.num then (x.num.toNat / x.den : ℕ)
  else - (((- x.num).toNat / x.den : ℕ) : ℤ)

/-!
## MutableStream (mic.py lines 35-108)

The wrapped PyAudio stream is modelled by a flag `wrapped_stopped`
(whether `stop_stream()` has been called on it) and by `device`, the
sequence of bytes the device would deliver to a reader.  `read` holds
`self.read_lock` for its whole loop and `mute`/`unmute` take the same
lock, so the `muted` flag cannot change while a `read` is inside its
loop: a `read` observes the flag as it is when it enters the critical
section, which is what the single `muted` field below captures.
-/

structure MutableStream where
  /-- `self.muted` -/
  muted : Bool
  /-- `self.SAMPLE_WIDTH = pyaudio.get_sample_size(format)` -/
  SAMPLE_WIDTH : Nat
  /-- whether `stop_stream()` has been called on the wrapped stream -/
  wrapped_stopped : Bool
  /-- the bytes the wrapped device stream delivers, in order -/
  device : Nat → Nat

/-- `self.muted_buffer = b''.join([b'\x00' * self.SAMPLE_WIDTH])`
(mic.py line 45): `SAMPLE_WIDTH` zero bytes, independent of any
requested read size. -/
def MutableStream.muted_buffer (s : MutableStream) : Bytes :=
  List.replicate s.SAMPLE_WIDTH 0

/-- `MutableStream.mute` (lines 48-52): set the flag, stop the wrapped
stream. -/
def MutableStream.mute (s : MutableStream) : MutableStream :=
  { s with muted := true, wrapped_stopped := true }

/-- `MutableStream.unmute` (lines 54-58): clear the flag, start the
wrapped stream. -/
def MutableStream.unmute (s : MutableStream) : MutableStream :=
  { s with muted := false, wrapped_stopped := false }

/-- `MutableStream.__init__` (lines 36-46): stores the `muted` argument
and, when it is true, immediately calls `self.mute()` at line 42.  But
`mute()` executes `with self.read_lock:` (line 50), and
`self.read_lock` is only assigned at line 46 — *after* the `if muted`
block — so construction with `muted=True` raises `AttributeError`
(modelled as `none`).  With `muted=False` construction completes and
the freshly opened PyAudio stream is running (`wrapped_stopped`
false). -/
def MutableStream.init (sample_width : Nat) (device : Nat → Nat)
    (muted : Bool) : Option MutableStream :=
  if muted then none
  else some { muted := false, SAMPLE_WIDTH := sample_width,
              wrapped_stopped := false, device := device }

/-- `MutableStream.read(size)` (lines 60-94).  The loop runs while
`remaining > 0`; on each pass it first tests `self.muted` and returns
`self.muted_buffer` if set, otherwise it accumulates bytes from the
wrapped stream until `remaining` bytes have been gathered.  Because the
whole loop executes under `self.read_lock` — the same lock `mute` and
`unmute` take — the flag is constant for the duration of the loop, so
the read returns `muted_buffer` exactly when `size > 0` and the stream
is muted on entry; with `size = 0` the loop body never runs and the
empty join is returned. -/
def MutableStream.read (s : MutableStream) (size : Nat) : Bytes :=
  if 0 < size ∧ s.muted = true then s.muted_buffer
  else (List.range size).map s.device

/-!
## MutableMicrophone (mic.py lines 111-168)

`self.stream` is `None` between `__exit__`/`_stop` and `_start`; the
`muted` flag lives on the microphone and is pushed into the stream when
one exists.
-/

structure MutableMicrophone where
  /-- `self.muted` -/
  muted : Bool
  /-- `self.stream`: `none` when no stream is open -/
  stream : Option MutableStream
  /-- sample width derived from `self.format` -/
  sample_width : Nat
  /-- bytes the device would deliver once opened -/
  device : Nat → Nat

/-- `MutableMicrophone.mute` (lines 157-160): set the flag and, if a
stream is open, mute it. -/
def MutableMicrophone.mute (m : MutableMicrophone) : MutableMicrophone :=
  { m with muted := true, stream := m.stream.map MutableStream.mute }

/-- `MutableMicrophone.unmute` (lines 162-165). -/
def MutableMicrophone.unmute (m : MutableMicrophone) : MutableMicrophone :=
  { m with muted := false, stream := m.stream.map MutableStream.unmute }

/-- `MutableMicrophone.is_muted` (lines 167-168). -/
def MutableMicrophone.is_muted (m : MutableMicrophone) : Bool :=
  m.muted

/-- `MutableMicrophone._start` (lines 123-134): asserts no stream is
open (modelled as `none` on violation), then wraps a freshly opened
device stream in `MutableStream`, passing the remembered `self.muted`
flag to its constructor.  Nothing in `_start` catches the
`AttributeError` the constructor raises when that flag is true, so the
failure propagates (`none`). -/
def MutableMicrophone._start (m : MutableMicrophone) :
    Option MutableMicrophone :=
  match m.stream with
  | some _ => none
  | none =>
      (MutableStream.init m.sample_width m.device m.muted).map
        fun s => { m with stream := some s }

/-- `MutableMicrophone._stop` (lines 139-150): stops and closes the open
stream (failures are swallowed) and sets `self.stream = None`. -/
def MutableMicrophone._stop (m : MutableMicrophone) : MutableMicrophone :=
  { m with stream := none }

/-- `MutableMicrophone.restart` (lines 152-155): `_stop` then `_start`. -/
def MutableMicrophone.restart (m : MutableMicrophone) :
    Option MutableMicrophone :=
  m._stop._start

/-!
## ResponsiveRecognizer (mic.py lines 175-457)

Configuration fields are read from `CONFIGURATION` in `__init__` and never
written afterwards; `energy_threshold` and `dynamic_energy_threshold` are
inherited from `speech_recognition.Recognizer`.  The damping factor used by
`_adjust_threshold` is `self.dynamic_energy_adjustment_damping **
seconds_per_buffer` — a real power that the embedding carries as the
precomputed rational field `damping_pow_spb` (for a base in `(0,1)` and a
positive exponent the power always lies in `(0,1)`).
-/

structure ResponsiveRecognizer where
  /-- `self.multiplier` -/
  multiplier : ℚ
  /-- `self.energy_ratio` -/
  energy_ratio : ℚ
  /-- `self.recording_timeout_with_silence` (default 3.0) -/
  recording_timeout_with_silence : ℚ
  /-- `self.recording_timeout` (default 10.0) -/
  recording_timeout : ℚ
  /-- `self.min_loud_sec` (default 0.5) -/
  min_loud_sec : ℚ
  /-- `self.min_silence_at_end` (default 0.25) -/
  min_silence_at_end : ℚ
  /-- inherited `self.dynamic_energy_threshold` -/
  dynamic_energy_threshold : Bool
  /-- the value `self.dynamic_energy_adjustment_damping ** seconds_per_buffer`
  computed in `_adjust_threshold` (line 451) -/
  damping_pow_spb : ℚ
  /-- inherited `self.energy_threshold` -/
  energy_threshold : ℚ
  /-- `self._stop_signaled` -/
  _stop_signaled : Bool
  /-- `self._listen_triggered` -/
  _listen_triggered : Bool
  /-- `self._should_adjust_noise` -/
  _should_adjust_noise : Bool

/-- `ResponsiveRecognizer._adjust_threshold(energy, seconds_per_buffer)`
(lines 448-456): only when the dynamic threshold is enabled AND
`energy > 0`, smooth `energy_threshold` toward
`energy * energy_ratio` with the damping weight. -/
def ResponsiveRecognizer._adjust_threshold (r : ResponsiveRecognizer)
    (energy : ℚ) : ResponsiveRecognizer :=
  if r.dynamic_energy_threshold = true ∧ 0 < energy then
    let damping := r.damping_pow_spb
    let target_energy := energy * r.energy_ratio
    { r with energy_threshold :=
        r.energy_threshold * damping + target_energy * (1 - damping) }
  else r

/-- `ResponsiveRecognizer.stop` (lines 345-349). -/
def ResponsiveRecognizer.stop (r : ResponsiveRecognizer) :
    ResponsiveRecognizer :=
  { r with _stop_signaled := true }

/-- `ResponsiveRecognizer.trigger_listen` (lines 351-354). -/
def ResponsiveRecognizer.trigger_listen (r : ResponsiveRecognizer) :
    ResponsiveRecognizer :=
  { r with _listen_triggered := true }

/-- `ResponsiveRecognizer.trigger_ambient_noise_adjustment`
(lines 356-358). -/
def ResponsiveRecognizer.trigger_ambient_noise_adjustment
    (r : ResponsiveRecognizer) : ResponsiveRecognizer :=
  { r with _should_adjust_noise := true }

/-- `ResponsiveRecognizer._adjust_ambient_noise` (lines 360-365): the
library call `adjust_for_ambient_noise` rebuilds `energy_threshold` from
the sampled environment (its result enters as `new_threshold`), then the
flag is cleared. -/
def ResponsiveRecognizer._adjust_ambient_noise (r : ResponsiveRecognizer)
    (new_threshold : ℚ) : ResponsiveRecognizer :=
  { r with energy_threshold := new_threshold, _should_adjust_noise := false }

/-- local `max_noise = 25` of `_record_phrase` (line 246). -/
def max_noise : ℚ := 25

/-- local `min_noise = 0` of `_record_phrase` (line 247). -/
def min_noise : ℚ := 0

/-- local closure `increase_noise` of `_record_phrase` (lines 251-254):
adds `200 * sec_per_buffer` only when the level is still below
`max_noise`; no clamping of the result. -/
def increase_noise (sec_per_buffer : ℚ) (level : ℚ) : ℚ :=
  if level < max_noise then level + 200 * sec_per_buffer else level

/-- local closure `decrease_noise` of `_record_phrase` (lines 256-259):
subtracts `100 * sec_per_buffer` only when the level is still above
`min_noise`; no clamping of the result. -/
def decrease_noise (sec_per_buffer : ℚ) (level : ℚ) : ℚ :=
  if min_noise < level then level - 100 * sec_per_buffer else level

/-- The quantities `_record_phrase` derives once per invocation
(lines 262-270) together with the per-chunk externals: `energyOf` models
`calc_energy` = `audioop.rms(chunk, SAMPLE_WIDTH)`. -/
structure PhraseParams where
  sec_per_buffer : ℚ
  energyOf : Bytes → ℚ
  /-- `min_loud_chunks = int(self.min_loud_sec / sec_per_buffer)` -/
  min_loud_chunks : ℤ
  /-- `max_chunks_of_silence = int(self.recording_timeout_with_silence / sec_per_buffer)` -/
  max_chunks_of_silence : ℤ

/-- The mutable state of one `_record_phrase` invocation. -/
structure PhraseState where
  /-- the recognizer (its `energy_threshold` mutates during recording) -/
  recog : ResponsiveRecognizer
  /-- `byte_data` -/
  byte_data : Bytes
  /-- `num_chunks` -/
  num_chunks : Nat
  /-- `num_loud_chunks` -/
  num_loud_chunks : Nat
  /-- `noise` -/
  noise : ℚ
  /-- `silence_duration` -/
  silence_duration : ℚ
  /-- `phrase_complete` -/
  phrase_complete : Bool

/-- One pass of the `while` body of `_record_phrase` (lines 280-315):
append the chunk, update noise / loud count / threshold, recompute the
completion flag, and finally honour the `buttonPress` signal.  `button`
is the value of `check_for_signal('buttonPress')` for this pass. -/
def record_step (p : PhraseParams) (chunk : Bytes) (button : Bool)
    (s : PhraseState) : PhraseState :=
  let byte_data := s.byte_data ++ chunk
  let num_chunks := s.num_chunks + 1
  let energy := p.energyOf chunk
  let test_threshold := s.recog.energy_threshold * s.recog.multiplier
  let is_loud := test_threshold < energy
  let noise :=
    if is_loud then increase_noise p.sec_per_buffer s.noise
    else decrease_noise p.sec_per_buffer s.noise
  let num_loud_chunks :=
    if is_loud then s.num_loud_chunks + 1 else s.num_loud_chunks
  let recog :=
    if is_loud then s.recog else s.recog._adjust_threshold energy
  let was_loud_enough := p.min_loud_chunks < (num_loud_chunks : ℤ)
  let quiet0 := noise ≤ min_noise
  let silence_duration :=
    if quiet0 then s.silence_duration + p.sec_per_buffer else 0
  let quiet_enough :=
    quiet0 ∧ ¬ silence_duration < s.recog.min_silence_at_end
  let recorded_too_much_silence :=
    p.max_chunks_of_silence < (num_chunks : ℤ)
  let phrase_complete0 :=
    if quiet_enough ∧ (was_loud_enough ∨ recorded_too_much_silence)
    then true else s.phrase_complete
  let phrase_complete := if button then true else phrase_complete0
  { recog := recog, byte_data := byte_data, num_chunks := num_chunks,
    num_loud_chunks := num_loud_chunks, noise := noise,
    silence_duration := silence_duration,
    phrase_complete := phrase_complete }

/-- The `while num_chunks < max_chunks and not phrase_complete` loop of
`_record_phrase` (line 279), with fuel.  `chunks i` / `button i` are the
chunk delivered and the `buttonPress` signal observed on the pass that
consumes the `i`-th chunk. -/
def record_loop (p : PhraseParams) (chunks : Nat → Bytes)
    (button : Nat → Bool) (max_chunks : ℤ) :
    Nat → PhraseState → PhraseState
  | 0, s => s
  | fuel + 1, s =>
      if (s.num_chunks : ℤ) < max_chunks ∧ s.phrase_complete = false then
        record_loop p chunks button max_chunks fuel
          (record_step p (chunks s.num_chunks) (button s.num_chunks) s)
      else s

/-- The state of `_record_phrase` just before its loop (lines 243-278):
counters zeroed and `byte_data = get_silence(source.SAMPLE_WIDTH)` —
one silent sample, not one silent chunk. -/
def initPhraseState (r : ResponsiveRecognizer) (sample_width : Nat) :
    PhraseState :=
  { recog := r, byte_data := get_silence sample_width, num_chunks := 0,
    num_loud_chunks := 0, noise := 0, silence_duration := 0,
    phrase_complete := false }

/-- `ResponsiveRecognizer._record_phrase` (lines 216-317) with
`stream=None`, `ww_frames=None`: derive the three chunk thresholds once,
then run the loop.  `max_chunks.toNat` fuel is enough because every pass
increments `num_chunks` and the guard needs `num_chunks < max_chunks`. -/
def _record_phrase (r : ResponsiveRecognizer) (sec_per_buffer : ℚ)
    (sample_width : Nat) (energyOf : Bytes → ℚ) (chunks : Nat → Bytes)
    (button : Nat → Bool) : PhraseState :=
  let min_loud_chunks := int_trunc (r.min_loud_sec / sec_per_buffer)
  let max_chunks := int_trunc (r.recording_timeout / sec_per_buffer)
  let max_chunks_of_silence :=
    int_trunc (r.recording_timeout_with_silence / sec_per_buffer)
  let p : PhraseParams :=
    { sec_per_buffer := sec_per_buffer, energyOf := energyOf,
      min_loud_chunks := min_loud_chunks,
      max_chunks_of_silence := max_chunks_of_silence }
  record_loop p chunks button max_chunks max_chunks.toNat
    (initPhraseState r sample_width)

/-- The two bus notifications `listen` can emit. -/
inductive Event where
  | record_begin
  | record_end
deriving DecidableEq

/-- What one `listen` call produces: the recorded audio (if any), the
bus events in emission order, and whether cue-sound playback was
attempted after the wait loop. -/
structure ListenResult where
  audio : Option Bytes
  events : List Event
  cue_attempted : Bool

/-- `ResponsiveRecognizer.listen` (lines 405-446).  The source is muted
and `_wait_for_listen_signal` loops until `_stop_signaled` or a listen
signal; the code after that loop (lines 380-395) attempts cue playback
whenever the configured sound resolves to a file — it does not consult
`_stop_signaled` (`audio_file_resolved` models `resolve_resource_file`
returning a file).  Then `_listen_triggered` is cleared; on
`_stop_signaled` the call returns `None` before unmuting, before any bus
event and before recording; otherwise it emits `record_begin`, records a
phrase and emits `record_end`. -/
def listen (r : ResponsiveRecognizer) (audio_file_resolved : Bool)
    (sec_per_buffer : ℚ) (sample_width : Nat) (energyOf : Bytes → ℚ)
    (chunks : Nat → Bytes) (button : Nat → Bool) :
    ResponsiveRecognizer × ListenResult :=
  let cue_attempted := audio_file_resolved
  let r1 := { r with _listen_triggered := false }
  if r1._stop_signaled = true then
    (r1, { audio := none, events := [], cue_attempted := cue_attempted })
  else
    let ps := _record_phrase r1 sec_per_buffer sample_width energyOf
                chunks button
    (ps.recog,
     { audio := some ps.byte_data,
       events := [Event.record_begin, Event.record_end],
       cue_attempted := cue_attempted })

/-- The operations callable on a `ResponsiveRecognizer` after
construction (cross-thread setters and the capture-thread `listen`). -/
inductive Op where
  | stop
  | trigger_listen
  | trigger_ambient_noise_adjustment
  | adjust_ambient_noise (new_threshold : ℚ)
  | listen (audio_file_resolved : Bool) (sec_per_buffer : ℚ)
      (sample_width : Nat) (energyOf : Bytes → ℚ)
      (chunks : Nat → Bytes) (button : Nat → Bool)

/-- Effect of each operation on the recognizer state. -/
def applyOp (r : ResponsiveRecognizer) : Op → ResponsiveRecognizer
  | Op.stop => r.stop
  | Op.trigger_listen => r.trigger_listen
  | Op.trigger_ambient_noise_adjustment =>
      r.trigger_ambient_noise_adjustment
  | Op.adjust_ambient_noise t => r._adjust_ambient_noise t
  | Op.listen af spb w e c b => (listen r af spb w e c b).1

/-!
## Concrete instances used to instantiate and to refute claims
-/

/-- A recognizer with the repository's default configuration (listener
defaults of mic.py lines 185-198; `speech_recognition` defaults for the
inherited fields; `damping_pow_spb` is a representative value of
`0.15 ** sec_per_buffer`, which lies in `(0,1)`). -/
def defaultRecognizer : ResponsiveRecognizer :=
  { multiplier := 1, energy_ratio := 3/2,
    recording_timeout_with_silence := 3, recording_timeout := 10,
    min_loud_sec := 1/2, min_silence_at_end := 1/4,
    dynamic_energy_threshold := true, damping_pow_spb := 1/2,
    energy_threshold := 300,
    _stop_signaled := false, _listen_triggered := false,
    _should_adjust_noise := false }

/-- A muted 16-bit stream whose device would deliver nonzero bytes. -/
def mutedStream : MutableStream :=
  { muted := true, SAMPLE_WIDTH := 2, wrapped_stopped := true,
    device := fun i => i + 1 }

/-- A microphone that was muted while no stream was open. -/
def mutedClosedMicrophone : MutableMicrophone :=
  { muted := true, stream := none, sample_width := 2,
    device := fun i => i + 1 }

/-- The default recognizer with a one-second recording timeout, so that
with `sec_per_buffer = 1` the hard cap is a single chunk. -/
def c2r : ResponsiveRecognizer :=
  { defaultRecognizer with recording_timeout := 1 }

/-- A phrase recording over 16-bit samples (`sample_width = 2`) with
4-byte chunks: the one-chunk hard cap of `c2r` stops the loop after
consuming exactly one chunk. -/
def c2Run : PhraseState :=
  _record_phrase c2r 1 2 (fun _ => 1000) (fun _ => [7, 7, 7, 7])
    (fun _ => false)

/-- Per-chunk parameters with `sec_per_buffer = 1/10` (a 1600-frame
chunk at 16 kHz) and a uniformly loud energy reading: each loud chunk
adds `200 × 1/10 = 20` to the noise level. -/
def loudTick : PhraseParams :=
  { sec_per_buffer := 1/10, energyOf := fun _ => 1000,
    min_loud_chunks := 5, max_chunks_of_silence := 30 }

/-- Initial endpointer state under the default configuration. -/
def c4s0 : PhraseState := initPhraseState defaultRecognizer 2

/-- State after one loud chunk. -/
def c4s1 : PhraseState := record_step loudTick [0, 0] false c4s0

/-- State after two loud chunks. -/
def c4s2 : PhraseState := record_step loudTick [0, 0] false c4s1

/-- Per-chunk parameters whose energy reading is 100 per byte: the
empty chunk reads zero energy, short chunks read quiet, long chunks
read loud. -/
def quietTick : PhraseParams :=
  { sec_per_buffer := 1/10, energyOf := fun c => (c.length : ℚ) * 100,
    min_loud_chunks := 5, max_chunks_of_silence := 30 }

/-- Default recognizer with `energy_threshold = 320`. -/
def c5r : ResponsiveRecognizer :=
  { defaultRecognizer with energy_threshold := 320 }

/-- Initial endpointer state at threshold 320. -/
def c5s : PhraseState := initPhraseState c5r 2

/-- Default recognizer with `energy_threshold = 200`. -/
def c6r : ResponsiveRecognizer :=
  { defaultRecognizer with energy_threshold := 200 }

/-- Initial endpointer state at threshold 200. -/
def c6s : PhraseState := initPhraseState c6r 2

/-- Initial endpointer state used to instantiate the completion-test
characterization. -/
def c3s : PhraseState := initPhraseState defaultRecognizer 2

/-- A recognizer on which `stop()` has been called. -/
def c8r : ResponsiveRecognizer :=
  { defaultRecognizer with _stop_signaled := true }

/-!
## Helper lemmas about the recording loop
-/

theorem record_step_num_chunks (p : PhraseParams) (chunk : Bytes)
    (button : Bool) (s : PhraseState) :
    (record_step p chunk button s).num_chunks = s.num_chunks + 1 := rfl

theorem record_step_byte_data (p : PhraseParams) (chunk : Bytes)
    (button : Bool) (s : PhraseState) :
    (record_step p chunk button s).byte_data = s.byte_data ++ chunk := rfl

theorem record_step_noise (p : PhraseParams) (chunk : Bytes)
    (button : Bool) (s : PhraseState) :
    (record_step p chunk button s).noise =
      if s.recog.energy_threshold * s.recog.multiplier < p.energyOf chunk
      then increase_noise p.sec_per_buffer s.noise
      else decrease_noise p.sec_per_buffer s.noise := rfl

theorem record_step_num_loud_chunks (p : PhraseParams) (chunk : Bytes)
    (button : Bool) (s : PhraseState) :
    (record_step p chunk button s).num_loud_chunks =
      if s.recog.energy_threshold * s.recog.multiplier < p.energyOf chunk
      then s.num_loud_chunks + 1 else s.num_loud_chunks := rfl

theorem record_step_recog (p : PhraseParams) (chunk : Bytes)
    (button : Bool) (s : PhraseState) :
    (record_step p chunk button s).recog =
      if s.recog.energy_threshold * s.recog.multiplier < p.energyOf chunk
      then s.recog else s.recog._adjust_threshold (p.energyOf chunk) := rfl

theorem record_step_silence_duration (p : PhraseParams) (chunk : Bytes)
    (button : Bool) (s : PhraseState) :
    (record_step p chunk button s).silence_duration =
      if (record_step p chunk button s).noise ≤ min_noise
      then s.silence_duration + p.sec_per_buffer else 0 := rfl

theorem record_step_phrase_complete (p : PhraseParams) (chunk : Bytes)
    (button : Bool) (s : PhraseState) :
    (record_step p chunk button s).phrase_complete =
      if button then true
      else
        if ((record_step p chunk button s).noise ≤ min_noise ∧
              ¬ (record_step p chunk button s).silence_duration <
                  s.recog.min_silence_at_end) ∧
            (p.min_loud_chunks <
                ((record_step p chunk button s).num_loud_chunks : ℤ) ∨
              p.max_chunks_of_silence <
                ((record_step p chunk button s).num_chunks : ℤ))
        then true else s.phrase_complete := rfl

theorem record_loop_zero (p : PhraseParams) (chunks : Nat → Bytes)
    (button : Nat → Bool) (max_chunks : ℤ) (s : PhraseState) :
    record_loop p chunks button max_chunks 0 s = s := rfl

theorem record_loop_succ (p : PhraseParams) (chunks : Nat → Bytes)
    (button : Nat → Bool) (max_chunks : ℤ) (fuel : Nat)
    (s : PhraseState) :
    record_loop p chunks button max_chunks (fuel + 1) s =
      if (s.num_chunks : ℤ) < max_chunks ∧ s.phrase_complete = false then
        record_loop p chunks button max_chunks fuel
          (record_step p (chunks s.num_chunks) (button s.num_chunks) s)
      else s := by
  rw [record_loop]

/-- Any property preserved by the loop body holds for the loop result. -/
theorem record_loop_invariant (p : PhraseParams) (chunks : Nat → Bytes)
    (button : Nat → Bool) (max_chunks : ℤ) (I : PhraseState → Prop)
    (hstep : ∀ s, I s →
      I (record_step p (chunks s.num_chunks) (button s.num_chunks) s)) :
    ∀ fuel s, I s →
      I (record_loop p chunks button max_chunks fuel s) := by
  intro fuel
  induction fuel with
  | zero => intro s h; exact h
  | succ n ih =>
      intro s h
      rw [record_loop]
      split
      · exact ih _ (hstep s h)
      · exact h

/-- The loop never shrinks the chunk counter. -/
theorem record_loop_num_chunks_ge (p : PhraseParams)
    (chunks : Nat → Bytes) (button : Nat → Bool) (max_chunks : ℤ) :
    ∀ fuel s, s.num_chunks ≤
      (record_loop p chunks button max_chunks fuel s).num_chunks := by
  intro fuel
  induction fuel with
  | zero => intro s; exact Nat.le_refl _
  | succ n ih =>
      intro s
      rw [record_loop]
      split
      · have h1 := ih (record_step p (chunks s.num_chunks)
          (button s.num_chunks) s)
        rw [record_step_num_chunks] at h1
        omega
      · exact Nat.le_refl _

/-- The loop consumes at most `fuel` chunks. -/
theorem record_loop_num_chunks_le (p : PhraseParams)
    (chunks : Nat → Bytes) (button : Nat → Bool) (max_chunks : ℤ) :
    ∀ fuel s,
      (record_loop p chunks button max_chunks fuel s).num_chunks ≤
        s.num_chunks + fuel := by
  intro fuel
  induction fuel with
  | zero => intro s; exact Nat.le_refl _
  | succ n ih =>
      intro s
      rw [record_loop]
      split
      · calc (record_loop p chunks button max_chunks n
                (record_step p (chunks s.num_chunks)
                  (button s.num_chunks) s)).num_chunks
            ≤ (s.num_chunks + 1) + n := by
              simpa [record_step_num_chunks] using ih _
          _ = s.num_chunks + (n + 1) := by omega
      · exact Nat.le_add_right _ _

/-- When the fuel covers the distance to `max_chunks`, the loop exits
with its guard false: the phrase is complete, or the hard cap has been
reached. -/
theorem record_loop_exit (p : PhraseParams) (chunks : Nat → Bytes)
    (button : Nat → Bool) (max_chunks : ℤ) :
    ∀ (fuel : Nat) (s : PhraseState),
      max_chunks ≤ (s.num_chunks : ℤ) + (fuel : ℤ) →
      (record_loop p chunks button max_chunks fuel s).phrase_complete
          = true ∨
      max_chunks ≤
        ((record_loop p chunks button max_chunks fuel s).num_chunks : ℤ) := by
  intro fuel
  induction fuel with
  | zero =>
      intro s h
      right
      simpa [record_loop] using h
  | succ n ih =>
      intro s h
      rw [record_loop]
      split
      · exact ih _ (by simp only [record_step_num_chunks]; push_cast; omega)
      · rename_i hg
        rcases Decidable.not_and_iff_or_not.mp hg with h1 | h2
        · right; omega
        · left; simpa using h2

/-- `_record_phrase` unfolded: the derived per-invocation quantities and
the fueled loop. -/
theorem _record_phrase_eq (r : ResponsiveRecognizer) (sec_per_buffer : ℚ)
    (sample_width : Nat) (energyOf : Bytes → ℚ) (chunks : Nat → Bytes)
    (button : Nat → Bool) :
    _record_phrase r sec_per_buffer sample_width energyOf chunks button =
      record_loop
        { sec_per_buffer := sec_per_buffer, energyOf := energyOf,
          min_loud_chunks := int_trunc (r.min_loud_sec / sec_per_buffer),
          max_chunks_of_silence :=
            int_trunc (r.recording_timeout_with_silence /
              sec_per_buffer) }
        chunks button (int_trunc (r.recording_timeout / sec_per_buffer))
        (int_trunc (r.recording_timeout / sec_per_buffer)).toNat
        (initPhraseState r sample_width) := rfl

/-- `_adjust_threshold` with the dynamic threshold enabled and a
positive energy performs the damped smoothing step. -/
theorem adjust_threshold_pos (r : ResponsiveRecognizer) (energy : ℚ)
    (hdyn : r.dynamic_energy_threshold = true) (he : 0 < energy) :
    (r._adjust_threshold energy).energy_threshold =
      r.energy_threshold * r.damping_pow_spb +
        (energy * r.energy_ratio) * (1 - r.damping_pow_spb) := by
  unfold ResponsiveRecognizer._adjust_threshold
  rw [if_pos ⟨hdyn, he⟩]

/-- `_adjust_threshold` with a non-positive energy is the identity: the
`energy > 0` guard fails. -/
theorem adjust_threshold_zero (r : ResponsiveRecognizer) (energy : ℚ)
    (he : ¬ 0 < energy) : r._adjust_threshold energy = r := by
  unfold ResponsiveRecognizer._adjust_threshold
  rw [if_neg fun h => he h.2]

/-- A strict convex combination with weight in `(0,1)` of two distinct
points lies strictly between them. -/
theorem convex_strict_between (t tgt d : ℚ) (hd0 : 0 < d) (hd1 : d < 1)
    (hne : t ≠ tgt) :
    min t tgt < t * d + tgt * (1 - d) ∧
    t * d + tgt * (1 - d) < max t tgt := by
  rcases lt_or_gt_of_ne hne with h | h
  · rw [min_eq_left h.le, max_eq_right h.le]
    constructor <;> nlinarith
  · rw [min_eq_right h.le, max_eq_left h.le]
    constructor <;> nlinarith

/-!
## C1 — muted reads
-/

/-- **C1, counterexample.**  The claim says a muted `read(n)` returns a
zero-filled buffer of exactly `n` bytes.  On the muted stream with
`SAMPLE_WIDTH = 2`, `read(8)` returns the 2-byte `muted_buffer`, so its
length is 2, not the requested 8. -/
theorem c1_counterexample :
    (mutedStream.read 8).length = 2 ∧ (mutedStream.read 8).length ≠ 8 := by
  constructor <;> decide

/-- **C1, amended.**  If the stream is muted when `read` enters its
critical section (the `read_lock` held for the whole loop prevents
`mute`/`unmute` from interleaving mid-read), then for every requested
size `n > 0` the read returns `muted_buffer`: exactly `SAMPLE_WIDTH`
zero bytes — all-zero content, but of one sample's width rather than of
the requested size `n`. -/
theorem c1_muted_read_returns_one_zero_sample (s : MutableStream)
    (n : Nat) (hm : s.muted = true) (hn : 0 < n) :
    s.read n = List.replicate s.SAMPLE_WIDTH 0 ∧
    ∀ b ∈ s.read n, b = 0 := by
  have h : s.read n = List.replicate s.SAMPLE_WIDTH 0 := by
    simp [MutableStream.read, MutableStream.muted_buffer, hm, hn]
  refine ⟨h, ?_⟩
  intro b hb
  rw [h] at hb
  exact List.eq_of_mem_replicate hb

/-- **C1, witness.**  The amended statement at the concrete muted
stream and `n = 8`. -/
theorem c1_witness :
    MutableStream.read mutedStream 8 =
      List.replicate mutedStream.SAMPLE_WIDTH 0 ∧
    ∀ b ∈ MutableStream.read mutedStream 8, b = 0 :=
  c1_muted_read_returns_one_zero_sample mutedStream 8 rfl (by decide)

/-!
## C9 — mute state at stream construction and restart
-/

/-- **C9.**  The claim says `_start()`/`restart()` on a microphone
whose muted flag was set while no stream was open *succeeds* with the
new stream muted.  Evaluating the code at that input: `mute()` with
`self.stream = None` does remember the flag, but
`MutableStream.__init__(..., muted=True)` calls `self.mute()` (line 42)
which dereferences `self.read_lock` (line 50) before that attribute is
assigned (line 46), so construction raises `AttributeError` and both
`_start` and `restart` fail instead of returning a muted stream. -/
theorem c9_muted_start_raises :
    mutedClosedMicrophone.muted = true ∧
    mutedClosedMicrophone.stream = none ∧
    mutedClosedMicrophone._start = none ∧
    mutedClosedMicrophone.restart = none :=
  ⟨rfl, rfl, rfl, rfl⟩

/-!
## C2 — phrase buffer length
-/

/-- **C2, counterexample.**  The claim says the buffer after `N`
consumed chunks has length `(N+1) × chunk_byte_size` and is always a
multiple of the chunk byte size.  With `SAMPLE_WIDTH = 2` and 4-byte
chunks, after one consumed chunk the buffer holds
`get_silence(2) + chunk` = 6 bytes: not `2 × 4 = 8`, and not a multiple
of 4 — the leading sentinel is one silent *sample*, not one silent
chunk. -/
theorem c2_counterexample :
    c2Run.num_chunks = 1 ∧ c2Run.byte_data.length = 6 ∧
    c2Run.byte_data.length ≠ (c2Run.num_chunks + 1) * 4 ∧
    ¬ 4 ∣ c2Run.byte_data.length := by
  have hrun : c2Run.num_chunks = 1 ∧ c2Run.byte_data.length = 6 := by
    have hmax : int_trunc (c2r.recording_timeout / 1) = 1 := by
      show int_trunc ((1 : ℚ) / 1) = 1
      norm_num [int_trunc]
    simp only [c2Run, _record_phrase, hmax, Int.toNat_one]
    rw [show (1 : ℕ) = 0 + 1 from rfl, record_loop_succ,
      if_pos (show ((initPhraseState c2r 2).num_chunks : ℤ) < 1 ∧
          (initPhraseState c2r 2).phrase_complete = false by
        norm_num [initPhraseState])]
    rw [record_loop_zero]
    exact ⟨by rw [record_step_num_chunks]; simp [initPhraseState],
      by rw [record_step_byte_data]; rfl⟩
  refine ⟨hrun.1, hrun.2, ?_, ?_⟩
  · rw [hrun.1, hrun.2]; decide
  · rw [hrun.2]; decide

/-- **C2, amended.**  For every chunk sequence whose chunks all have
`chunk_byte_size = L` bytes, the buffer built by `_record_phrase` after
`N` consumed chunks has length exactly `SAMPLE_WIDTH + N × L`: the
sentinel contributes one silent sample of `SAMPLE_WIDTH` bytes, so the
length is congruent to `SAMPLE_WIDTH` modulo the chunk byte size, not a
multiple of it. -/
theorem c2_buffer_length (r : ResponsiveRecognizer) (sec_per_buffer : ℚ)
    (sample_width L : Nat) (energyOf : Bytes → ℚ) (chunks : Nat → Bytes)
    (button : Nat → Bool) (hL : ∀ i, (chunks i).length = L) :
    (_record_phrase r sec_per_buffer sample_width energyOf chunks
        button).byte_data.length =
      sample_width +
        (_record_phrase r sec_per_buffer sample_width energyOf chunks
            button).num_chunks * L := by
  have h := record_loop_invariant
    { sec_per_buffer := sec_per_buffer, energyOf := energyOf,
      min_loud_chunks := int_trunc (r.min_loud_sec / sec_per_buffer),
      max_chunks_of_silence :=
        int_trunc (r.recording_timeout_with_silence / sec_per_buffer) }
    chunks button
    (int_trunc (r.recording_timeout / sec_per_buffer))
    (fun s => s.byte_data.length = sample_width + s.num_chunks * L)
    (by
      intro s hI
      rw [record_step_byte_data, record_step_num_chunks,
        List.length_append, hI, hL]
      ring)
    (int_trunc (r.recording_timeout / sec_per_buffer)).toNat
    (initPhraseState r sample_width)
    (by simp [initPhraseState, get_silence])
  exact h

/-- **C2, witness.**  The amended statement at a concrete run: default
configuration, 4-byte chunks, quiet energy readings, no button signal. -/
theorem c2_witness :
    (_record_phrase defaultRecognizer 1 2 (fun _ => 0)
        (fun _ => [1, 2, 3, 4]) (fun _ => false)).byte_data.length =
      2 + (_record_phrase defaultRecognizer 1 2 (fun _ => 0)
        (fun _ => [1, 2, 3, 4]) (fun _ => false)).num_chunks * 4 :=
  c2_buffer_length defaultRecognizer 1 2 4 (fun _ => 0)
    (fun _ => [1, 2, 3, 4]) (fun _ => false) (fun _ => rfl)

/-!
## C3 — the phrase-completion condition
-/

/-- **C3.**  Within one `_record_phrase` invocation, starting from a
state not yet complete: after processing a chunk the `phrase_complete`
flag is set exactly when the button-press signal is observed, or the
noise level is at (or, via overshoot, below) its floor with the
accumulated `silence_duration` reaching `min_silence_at_end` while the
loud-chunk count exceeds `int(min_loud_sec / sec_per_buffer)` or the
total chunk count exceeds
`int(recording_timeout_with_silence / sec_per_buffer)`;
`silence_duration` accumulates `sec_per_buffer` per chunk while the
noise level is at its floor and resets to 0 otherwise; and the loop
takes no further pass exactly when the flag is set or the total chunk
count has reached the `int(recording_timeout / sec_per_buffer)` hard
cap. -/
theorem c3_completion_condition (p : PhraseParams)
    (chunks : Nat → Bytes) (button : Nat → Bool) (s : PhraseState)
    (max_chunks : ℤ) (fuel : Nat) (hs : s.phrase_complete = false) :
    ((record_step p (chunks s.num_chunks) (button s.num_chunks)
        s).phrase_complete = true ↔
      (button s.num_chunks = true ∨
        (((record_step p (chunks s.num_chunks) (button s.num_chunks)
              s).noise ≤ min_noise ∧
          s.recog.min_silence_at_end ≤
            (record_step p (chunks s.num_chunks) (button s.num_chunks)
              s).silence_duration) ∧
         (p.min_loud_chunks <
            ((record_step p (chunks s.num_chunks) (button s.num_chunks)
                s).num_loud_chunks : ℤ) ∨
          p.max_chunks_of_silence <
            ((record_step p (chunks s.num_chunks) (button s.num_chunks)
                s).num_chunks : ℤ))))) ∧
    ((record_step p (chunks s.num_chunks) (button s.num_chunks)
        s).silence_duration =
      if (record_step p (chunks s.num_chunks) (button s.num_chunks)
            s).noise ≤ min_noise
      then s.silence_duration + p.sec_per_buffer else 0) ∧
    (record_loop p chunks button max_chunks (fuel + 1)
        (record_step p (chunks s.num_chunks) (button s.num_chunks) s) =
      record_step p (chunks s.num_chunks) (button s.num_chunks) s ↔
      ((record_step p (chunks s.num_chunks) (button s.num_chunks)
          s).phrase_complete = true ∨
        max_chunks ≤
          ((record_step p (chunks s.num_chunks) (button s.num_chunks)
              s).num_chunks : ℤ))) := by
  refine ⟨?_, record_step_silence_duration p _ _ s, ?_⟩
  · rw [record_step_phrase_complete, hs]
    split_ifs with hb hc
    · exact iff_of_true rfl (Or.inl hb)
    · rw [not_lt] at hc
      exact iff_of_true rfl (Or.inr hc)
    · rw [not_lt (b := s.recog.min_silence_at_end)] at hc
      constructor
      · intro h; cases h
      · rintro (h | h)
        · exact absurd h hb
        · exact absurd h hc
  · constructor
    · intro h
      by_cases hg : ((record_step p (chunks s.num_chunks)
            (button s.num_chunks) s).num_chunks : ℤ) < max_chunks ∧
          (record_step p (chunks s.num_chunks) (button s.num_chunks)
              s).phrase_complete = false
      · exfalso
        rw [record_loop_succ, if_pos hg] at h
        have h1 := record_loop_num_chunks_ge p chunks button max_chunks
          fuel (record_step p
            (chunks (record_step p (chunks s.num_chunks)
              (button s.num_chunks) s).num_chunks)
            (button (record_step p (chunks s.num_chunks)
              (button s.num_chunks) s).num_chunks)
            (record_step p (chunks s.num_chunks)
              (button s.num_chunks) s))
        rw [record_step_num_chunks] at h1
        have h2 := congrArg PhraseState.num_chunks h
        omega
      · rcases Decidable.not_and_iff_or_not.mp hg with h1 | h2
        · right; omega
        · left; simpa using h2
    · intro h
      rw [record_loop_succ, if_neg ?hg]
      case hg =>
        rintro ⟨hlt, hpc⟩
        rcases h with h | h
        · rw [h] at hpc; cases hpc
        · omega

/-- **C3, witness.**  The characterization at the default initial state
with quiet 2-byte chunks, no button signal, a hard cap of 5 and one unit
of remaining fuel. -/
theorem c3_witness :
    ((record_step quietTick [0, 0] false c3s).phrase_complete = true ↔
      (false = true ∨
        (((record_step quietTick [0, 0] false c3s).noise ≤ min_noise ∧
          c3s.recog.min_silence_at_end ≤
            (record_step quietTick [0, 0] false c3s).silence_duration) ∧
         (quietTick.min_loud_chunks <
            ((record_step quietTick [0, 0] false
                c3s).num_loud_chunks : ℤ) ∨
          quietTick.max_chunks_of_silence <
            ((record_step quietTick [0, 0] false
                c3s).num_chunks : ℤ))))) ∧
    ((record_step quietTick [0, 0] false c3s).silence_duration =
      if (record_step quietTick [0, 0] false c3s).noise ≤ min_noise
      then c3s.silence_duration + quietTick.sec_per_buffer else 0) ∧
    (record_loop quietTick (fun _ => [0, 0]) (fun _ => false) 5 1
        (record_step quietTick [0, 0] false c3s) =
      record_step quietTick [0, 0] false c3s ↔
      ((record_step quietTick [0, 0] false c3s).phrase_complete
          = true ∨
        5 ≤ ((record_step quietTick [0, 0] false
            c3s).num_chunks : ℤ))) :=
  c3_completion_condition quietTick (fun _ => [0, 0]) (fun _ => false)
    c3s 5 0 rfl

/-!
## C4 — noise level bounds
-/

/-- **C4, counterexample.**  The claim says NoiseLevel is clamped into
`[0, 25]` after every update.  With `sec_per_buffer = 1/10` each loud
chunk adds 20, and `increase_noise` only tests the *old* level against
`max_noise` — after two loud chunks from the default initial state the
level is 40, well above 25. -/
theorem c4_counterexample : c4s2.noise = 40 ∧ ¬ c4s2.noise ≤ 25 := by
  have hloud0 : c4s0.recog.energy_threshold * c4s0.recog.multiplier <
      loudTick.energyOf [0, 0] := by
    norm_num [c4s0, initPhraseState, defaultRecognizer, loudTick]
  have h1n : c4s1.noise = 20 := by
    rw [c4s1, record_step_noise, if_pos hloud0]
    norm_num [c4s0, initPhraseState, increase_noise, max_noise, loudTick]
  have h1r : c4s1.recog = defaultRecognizer := by
    rw [c4s1, record_step_recog, if_pos hloud0]
    rfl
  have hloud1 : c4s1.recog.energy_threshold * c4s1.recog.multiplier <
      loudTick.energyOf [0, 0] := by
    rw [h1r]
    norm_num [defaultRecognizer, loudTick]
  have h2n : c4s2.noise = 40 := by
    rw [c4s2, record_step_noise, if_pos hloud1, h1n]
    norm_num [increase_noise, max_noise, loudTick]
  exact ⟨h2n, by rw [h2n]; norm_num⟩

/-- **C4, amended.**  The invariant the updates actually maintain is the
open interval `(-100·sec_per_buffer, 25 + 200·sec_per_buffer)`:
`increase_noise`/`decrease_noise` guard on the old level but do not clamp
the result, so a single update can overshoot either end of `[0, 25]` by
up to one step.  The initial level is 0, and one `record_step` preserves
the interval. -/
theorem c4_noise_stays_in_open_interval (r : ResponsiveRecognizer)
    (w : Nat) (p : PhraseParams) (chunk : Bytes) (button : Bool)
    (s : PhraseState) (hspb : 0 < p.sec_per_buffer)
    (hlo : -(100 * p.sec_per_buffer) < s.noise)
    (hhi : s.noise < 25 + 200 * p.sec_per_buffer) :
    (initPhraseState r w).noise = 0 ∧
    -(100 * p.sec_per_buffer) < (record_step p chunk button s).noise ∧
    (record_step p chunk button s).noise <
      25 + 200 * p.sec_per_buffer := by
  refine ⟨rfl, ?_, ?_⟩ <;>
  · rw [record_step_noise]
    unfold increase_noise decrease_noise max_noise min_noise
    split <;> split <;> linarith

theorem loudTick_spb_pos : 0 < loudTick.sec_per_buffer := by
  norm_num [loudTick]

theorem c4s0_noise_lo : -(100 * loudTick.sec_per_buffer) < c4s0.noise := by
  norm_num [loudTick, c4s0, initPhraseState]

theorem c4s0_noise_hi :
    c4s0.noise < 25 + 200 * loudTick.sec_per_buffer := by
  norm_num [loudTick, c4s0, initPhraseState]

/-- **C4, witness.**  The amended statement at the concrete initial
state with `sec_per_buffer = 1/10`. -/
theorem c4_witness :
    (initPhraseState defaultRecognizer 2).noise = 0 ∧
    -(100 * loudTick.sec_per_buffer) <
      (record_step loudTick [0, 0] false c4s0).noise ∧
    (record_step loudTick [0, 0] false c4s0).noise <
      25 + 200 * loudTick.sec_per_buffer :=
  c4_noise_stays_in_open_interval defaultRecognizer 2 loudTick [0, 0]
    false c4s0 loudTick_spb_pos c4s0_noise_lo c4s0_noise_hi

/-!
## C5 — threshold smoothing moves toward the target
-/

/-- **C5, counterexample.**  The claim quantifies over *every* quiet
chunk.  A zero-energy chunk is quiet (0 is not above the test
threshold), yet `_adjust_threshold`'s `energy > 0` guard skips the
update: from threshold 320 the updated threshold is still 320, which
does not lie strictly between 320 and `0 × energy_ratio = 0`. -/
theorem c5_counterexample :
    (record_step quietTick [] false c5s).recog.energy_threshold = 320 ∧
    ¬ (min c5s.recog.energy_threshold
          (quietTick.energyOf [] * c5s.recog.energy_ratio) <
        (record_step quietTick [] false c5s).recog.energy_threshold ∧
       (record_step quietTick [] false c5s).recog.energy_threshold <
        max c5s.recog.energy_threshold
          (quietTick.energyOf [] * c5s.recog.energy_ratio)) := by
  have hq : ¬ c5s.recog.energy_threshold * c5s.recog.multiplier <
      quietTick.energyOf ([] : Bytes) := by
    norm_num [c5s, initPhraseState, c5r, defaultRecognizer, quietTick]
  have h : (record_step quietTick [] false c5s).recog.energy_threshold
      = 320 := by
    rw [record_step_recog, if_neg hq,
      adjust_threshold_zero _ _ (by norm_num [quietTick])]
    rfl
  refine ⟨h, ?_⟩
  rw [h]
  norm_num [c5s, initPhraseState, c5r, defaultRecognizer, quietTick,
    min_def, max_def]

/-- **C5, amended.**  For a quiet chunk of *positive* energy `E` (the
dynamic threshold enabled, damping in `(0,1)`, and the current threshold
not already equal to `E × energy_ratio`), the updated threshold lies
strictly between the previous threshold and `E × energy_ratio`; a loud
chunk leaves the threshold unchanged.  Zero-energy quiet chunks (see the
counterexample) also leave it unchanged. -/
theorem c5_threshold_moves_toward_target (p : PhraseParams)
    (chunk chunk2 : Bytes) (button button2 : Bool) (s : PhraseState)
    (hdyn : s.recog.dynamic_energy_threshold = true)
    (hd0 : 0 < s.recog.damping_pow_spb)
    (hd1 : s.recog.damping_pow_spb < 1)
    (hq : ¬ s.recog.energy_threshold * s.recog.multiplier <
      p.energyOf chunk)
    (he : 0 < p.energyOf chunk)
    (hne : s.recog.energy_threshold ≠
      p.energyOf chunk * s.recog.energy_ratio)
    (hl : s.recog.energy_threshold * s.recog.multiplier <
      p.energyOf chunk2) :
    (min s.recog.energy_threshold
        (p.energyOf chunk * s.recog.energy_ratio) <
      (record_step p chunk button s).recog.energy_threshold ∧
     (record_step p chunk button s).recog.energy_threshold <
      max s.recog.energy_threshold
        (p.energyOf chunk * s.recog.energy_ratio)) ∧
    (record_step p chunk2 button2 s).recog.energy_threshold =
      s.recog.energy_threshold := by
  constructor
  · rw [record_step_recog, if_neg hq, adjust_threshold_pos _ _ hdyn he]
    exact convex_strict_between _ _ _ hd0 hd1 hne
  · rw [record_step_recog, if_pos hl]

theorem c5s_dyn : c5s.recog.dynamic_energy_threshold = true := rfl

theorem c5s_damp_pos : 0 < c5s.recog.damping_pow_spb := by
  norm_num [c5s, initPhraseState, c5r, defaultRecognizer]

theorem c5s_damp_lt_one : c5s.recog.damping_pow_spb < 1 := by
  norm_num [c5s, initPhraseState, c5r, defaultRecognizer]

theorem c5s_quiet_one : ¬ c5s.recog.energy_threshold *
    c5s.recog.multiplier < quietTick.energyOf [1] := by
  norm_num [c5s, initPhraseState, c5r, defaultRecognizer, quietTick]

theorem c5s_energy_one_pos : 0 < quietTick.energyOf [1] := by
  norm_num [quietTick]

theorem c5s_not_at_target : c5s.recog.energy_threshold ≠
    quietTick.energyOf [1] * c5s.recog.energy_ratio := by
  norm_num [c5s, initPhraseState, c5r, defaultRecognizer, quietTick]

theorem c5s_loud_four : c5s.recog.energy_threshold *
    c5s.recog.multiplier < quietTick.energyOf [1, 2, 3, 4] := by
  norm_num [c5s, initPhraseState, c5r, defaultRecognizer, quietTick]

/-- **C5, witness.**  The amended statement at threshold 320 with a
quiet chunk of energy 100 and a loud chunk of energy 400. -/
theorem c5_witness :
    (min c5s.recog.energy_threshold
        (quietTick.energyOf [1] * c5s.recog.energy_ratio) <
      (record_step quietTick [1] false c5s).recog.energy_threshold ∧
     (record_step quietTick [1] false c5s).recog.energy_threshold <
      max c5s.recog.energy_threshold
        (quietTick.energyOf [1] * c5s.recog.energy_ratio)) ∧
    (record_step quietTick [1, 2, 3, 4] true c5s).recog.energy_threshold
      = c5s.recog.energy_threshold :=
  c5_threshold_moves_toward_target quietTick [1] [1, 2, 3, 4] false true
    c5s c5s_dyn c5s_damp_pos c5s_damp_lt_one c5s_quiet_one
    c5s_energy_one_pos c5s_not_at_target c5s_loud_four

/-!
## C6 — zero-energy (muted) chunks and the threshold
-/

/-- **C6, counterexample.**  The claim says zero-energy chunks still
trigger the smoothing update so the threshold drifts toward zero.  From
threshold 200 (damping 1/2), a zero-energy chunk leaves the threshold at
exactly 200: it does not decrease, and it does not equal the smoothed
value `200 × 1/2 + 0 × energy_ratio × 1/2 = 100` the update would have
produced. -/
theorem c6_counterexample :
    (record_step quietTick [] false c6s).recog.energy_threshold = 200 ∧
    ¬ (record_step quietTick [] false c6s).recog.energy_threshold
        < 200 ∧
    (record_step quietTick [] false c6s).recog.energy_threshold ≠
      200 * c6s.recog.damping_pow_spb +
        (quietTick.energyOf [] * c6s.recog.energy_ratio) *
          (1 - c6s.recog.damping_pow_spb) := by
  have hq : ¬ c6s.recog.energy_threshold * c6s.recog.multiplier <
      quietTick.energyOf ([] : Bytes) := by
    norm_num [c6s, initPhraseState, c6r, defaultRecognizer, quietTick]
  have h : (record_step quietTick [] false c6s).recog.energy_threshold
      = 200 := by
    rw [record_step_recog, if_neg hq,
      adjust_threshold_zero _ _ (by norm_num [quietTick])]
    rfl
  refine ⟨h, by rw [h]; norm_num, ?_⟩
  rw [h]
  norm_num [c6s, initPhraseState, c6r, defaultRecognizer, quietTick]

/-- **C6, amended.**  A zero-energy chunk (as a muted stream produces)
is judged quiet whenever the test threshold is non-negative — the noise
level takes the `decrease_noise` branch and the loud-chunk counter does
not move — but the `energy > 0` guard of `_adjust_threshold` *skips* the
smoothing update, so the energy threshold stays exactly where it was
while the stream is muted; it does not drift toward zero. -/
theorem c6_zero_energy_skips_threshold_update (p : PhraseParams)
    (chunk : Bytes) (button : Bool) (s : PhraseState)
    (hz : p.energyOf chunk = 0)
    (ht : 0 ≤ s.recog.energy_threshold * s.recog.multiplier) :
    (record_step p chunk button s).num_loud_chunks =
      s.num_loud_chunks ∧
    (record_step p chunk button s).noise =
      decrease_noise p.sec_per_buffer s.noise ∧
    (record_step p chunk button s).recog = s.recog := by
  have hq : ¬ s.recog.energy_threshold * s.recog.multiplier <
      p.energyOf chunk := by
    rw [hz]
    exact not_lt.mpr ht
  refine ⟨?_, ?_, ?_⟩
  · rw [record_step_num_loud_chunks, if_neg hq]
  · rw [record_step_noise, if_neg hq]
  · rw [record_step_recog, if_neg hq, hz,
      adjust_threshold_zero _ _ (lt_irrefl 0)]

theorem c6s_zero_energy : quietTick.energyOf [] = 0 := by
  norm_num [quietTick]

theorem c6s_test_threshold_nonneg :
    0 ≤ c6s.recog.energy_threshold * c6s.recog.multiplier := by
  norm_num [c6s, initPhraseState, c6r, defaultRecognizer]

/-- **C6, witness.**  The amended statement at threshold 200 and the
zero-energy empty chunk. -/
theorem c6_witness :
    (record_step quietTick [] false c6s).num_loud_chunks =
      c6s.num_loud_chunks ∧
    (record_step quietTick [] false c6s).noise =
      decrease_noise quietTick.sec_per_buffer c6s.noise ∧
    (record_step quietTick [] false c6s).recog = c6s.recog :=
  c6_zero_energy_skips_threshold_update quietTick [] false c6s
    c6s_zero_energy c6s_test_threshold_nonneg

/-!
## C7 — termination and the hard cap
-/

/-- **C7.**  For every input, `_record_phrase` terminates — the loop's
guard is false at the returned state — consuming at most
`int(recording_timeout / sec_per_buffer)` chunks; and on an input whose
chunks all read loud (above `energy_threshold × multiplier`) with no
button signal, it consumes exactly `int(recording_timeout /
sec_per_buffer)` chunks, never more. -/
theorem c7_hard_cap (r : ResponsiveRecognizer) (sec_per_buffer : ℚ)
    (sample_width : Nat) (energyOf : Bytes → ℚ) (chunks : Nat → Bytes)
    (button : Nat → Bool) (hspb : 0 < sec_per_buffer)
    (hb : ∀ i, button i = false)
    (hloud : ∀ i, r.energy_threshold * r.multiplier <
      energyOf (chunks i)) :
    (∀ (e2 : Bytes → ℚ) (c2 : Nat → Bytes) (b2 : Nat → Bool),
      (_record_phrase r sec_per_buffer sample_width e2 c2
          b2).num_chunks ≤
        (int_trunc (r.recording_timeout / sec_per_buffer)).toNat ∧
      ((_record_phrase r sec_per_buffer sample_width e2 c2
            b2).phrase_complete = true ∨
        int_trunc (r.recording_timeout / sec_per_buffer) ≤
          ((_record_phrase r sec_per_buffer sample_width e2 c2
              b2).num_chunks : ℤ))) ∧
    (_record_phrase r sec_per_buffer sample_width energyOf chunks
        button).num_chunks =
      (int_trunc (r.recording_timeout / sec_per_buffer)).toNat := by
  constructor
  · intro e2 c2 b2
    rw [_record_phrase_eq]
    constructor
    · have h := record_loop_num_chunks_le
        { sec_per_buffer := sec_per_buffer, energyOf := e2,
          min_loud_chunks := int_trunc (r.min_loud_sec / sec_per_buffer),
          max_chunks_of_silence :=
            int_trunc (r.recording_timeout_with_silence /
              sec_per_buffer) }
        c2 b2 (int_trunc (r.recording_timeout / sec_per_buffer))
        (int_trunc (r.recording_timeout / sec_per_buffer)).toNat
        (initPhraseState r sample_width)
      simpa [initPhraseState] using h
    · exact record_loop_exit _ c2 b2 _ _ (initPhraseState r sample_width)
        (by
          have h0 : (initPhraseState r sample_width).num_chunks = 0 := rfl
          rw [h0, Nat.cast_zero, zero_add]
          exact Int.self_le_toNat _)
  · rw [_record_phrase_eq]
    set p : PhraseParams :=
      { sec_per_buffer := sec_per_buffer, energyOf := energyOf,
        min_loud_chunks := int_trunc (r.min_loud_sec / sec_per_buffer),
        max_chunks_of_silence :=
          int_trunc (r.recording_timeout_with_silence /
            sec_per_buffer) } with hp
    have hstep : ∀ s : PhraseState,
        (s.recog = r ∧ s.phrase_complete = false ∧ 0 ≤ s.noise) →
        ((record_step p (chunks s.num_chunks) (button s.num_chunks)
            s).recog = r ∧
         (record_step p (chunks s.num_chunks) (button s.num_chunks)
            s).phrase_complete = false ∧
         0 ≤ (record_step p (chunks s.num_chunks) (button s.num_chunks)
            s).noise) := by
      rintro s ⟨h1, h2, h3⟩
      have hl : s.recog.energy_threshold * s.recog.multiplier <
          p.energyOf (chunks s.num_chunks) := by
        rw [h1]
        exact hloud s.num_chunks
      have hnoise : 0 < (record_step p (chunks s.num_chunks)
          (button s.num_chunks) s).noise := by
        rw [record_step_noise, if_pos hl]
        unfold increase_noise max_noise
        split
        · linarith
        · linarith
      refine ⟨?_, ?_, le_of_lt hnoise⟩
      · rw [record_step_recog, if_pos hl, h1]
      · rw [record_step_phrase_complete, hb,
          if_neg (by simp : ¬ false = true),
          if_neg fun hcond => absurd hcond.1.1 (not_le.mpr hnoise), h2]
    have hinv := record_loop_invariant p chunks button
      (int_trunc (r.recording_timeout / sec_per_buffer))
      (fun s => s.recog = r ∧ s.phrase_complete = false ∧ 0 ≤ s.noise)
      hstep
      (int_trunc (r.recording_timeout / sec_per_buffer)).toNat
      (initPhraseState r sample_width)
      ⟨rfl, rfl, le_refl 0⟩
    have hexit := record_loop_exit p chunks button
      (int_trunc (r.recording_timeout / sec_per_buffer))
      (int_trunc (r.recording_timeout / sec_per_buffer)).toNat
      (initPhraseState r sample_width)
      (by
        have h0 : (initPhraseState r sample_width).num_chunks = 0 := rfl
        rw [h0, Nat.cast_zero, zero_add]
        exact Int.self_le_toNat _)
    have hle := record_loop_num_chunks_le p chunks button
      (int_trunc (r.recording_timeout / sec_per_buffer))
      (int_trunc (r.recording_timeout / sec_per_buffer)).toNat
      (initPhraseState r sample_width)
    rcases hexit with hpc | hnum
    · rw [hinv.2.1] at hpc
      cases hpc
    · have h2 : (int_trunc (r.recording_timeout /
          sec_per_buffer)).toNat ≤
          (record_loop p chunks button
            (int_trunc (r.recording_timeout / sec_per_buffer))
            (int_trunc (r.recording_timeout / sec_per_buffer)).toNat
            (initPhraseState r sample_width)).num_chunks :=
        Int.toNat_le.mpr hnum
      rw [show (initPhraseState r sample_width).num_chunks = 0 from rfl,
        Nat.zero_add] at hle
      omega

theorem c7_spb_pos : (0 : ℚ) < 1 := one_pos

theorem c7_loud_energy : defaultRecognizer.energy_threshold *
    defaultRecognizer.multiplier < (1000 : ℚ) := by
  norm_num [defaultRecognizer]

/-- **C7, witness.**  The statement at the default configuration,
`sec_per_buffer = 1`, uniformly loud 2-byte chunks and no button
signal. -/
theorem c7_witness :
    (∀ (e2 : Bytes → ℚ) (c2 : Nat → Bytes) (b2 : Nat → Bool),
      (_record_phrase defaultRecognizer 1 2 e2 c2 b2).num_chunks ≤
        (int_trunc (defaultRecognizer.recording_timeout / 1)).toNat ∧
      ((_record_phrase defaultRecognizer 1 2 e2 c2
            b2).phrase_complete = true ∨
        int_trunc (defaultRecognizer.recording_timeout / 1) ≤
          ((_record_phrase defaultRecognizer 1 2 e2 c2
              b2).num_chunks : ℤ))) ∧
    (_record_phrase defaultRecognizer 1 2 (fun _ => 1000)
        (fun _ => [0, 0]) (fun _ => false)).num_chunks =
      (int_trunc (defaultRecognizer.recording_timeout / 1)).toNat :=
  c7_hard_cap defaultRecognizer 1 2 (fun _ => 1000) (fun _ => [0, 0])
    (fun _ => false) c7_spb_pos (fun _ => rfl) (fun _ => c7_loud_energy)

/-!
## C8 — stop during the wait loop
-/

/-- **C8, counterexample.**  The claim says that on a stop request the
wait loop exits *without playing the cue sound*.  But the cue-playback
code (mic.py lines 380-395) sits after the wait loop and does not
consult `_stop_signaled`: with stop signaled and the listen sound
resolving to a file, playback is still attempted. -/
theorem c8_counterexample :
    c8r._stop_signaled = true ∧
    (listen c8r true 1 2 (fun _ => 0) (fun _ => [])
        (fun _ => false)).2.cue_attempted = true :=
  ⟨rfl, rfl⟩

/-- **C8, amended.**  If the stop flag is set while waiting for the
listen trigger, the wait loop exits early and `listen()` aborts —
returning no phrase and emitting neither the record-begin nor the
record-end event, and clearing `_listen_triggered` — but the cue sound
is still attempted whenever the configured sound resolves to a file:
the playback code after the loop does not consult the stop flag. -/
theorem c8_stop_aborts_listen (r : ResponsiveRecognizer)
    (audio_file_resolved : Bool) (sec_per_buffer : ℚ)
    (sample_width : Nat) (energyOf : Bytes → ℚ) (chunks : Nat → Bytes)
    (button : Nat → Bool) (hstop : r._stop_signaled = true) :
    (listen r audio_file_resolved sec_per_buffer sample_width energyOf
        chunks button).2.audio = none ∧
    (listen r audio_file_resolved sec_per_buffer sample_width energyOf
        chunks button).2.events = [] ∧
    (listen r audio_file_resolved sec_per_buffer sample_width energyOf
        chunks button).2.cue_attempted = audio_file_resolved ∧
    (listen r audio_file_resolved sec_per_buffer sample_width energyOf
        chunks button).1._listen_triggered = false := by
  have h : ({ r with _listen_triggered := false} :
      ResponsiveRecognizer)._stop_signaled = true := hstop
  simp only [listen]
  rw [if_pos h]
  exact ⟨rfl, rfl, rfl, rfl⟩

/-- **C8, witness.**  The amended statement on the stopped recognizer
with a resolving cue sound. -/
theorem c8_witness :
    (listen c8r true 1 2 (fun _ => 0) (fun _ => [])
        (fun _ => false)).2.audio = none ∧
    (listen c8r true 1 2 (fun _ => 0) (fun _ => [])
        (fun _ => false)).2.events = [] ∧
    (listen c8r true 1 2 (fun _ => 0) (fun _ => [])
        (fun _ => false)).2.cue_attempted = true ∧
    (listen c8r true 1 2 (fun _ => 0) (fun _ => [])
        (fun _ => false)).1._listen_triggered = false :=
  c8_stop_aborts_listen c8r true 1 2 (fun _ => 0) (fun _ => [])
    (fun _ => false) rfl

/-!
## C10 — stopping is permanent
-/

/-- No operation on a `ResponsiveRecognizer` clears `_stop_signaled`:
`stop` sets it, everything else leaves it alone (`__init__` is the only
place it is ever written `False`). -/
theorem applyOp_preserves_stop (r : ResponsiveRecognizer) (op : Op)
    (h : r._stop_signaled = true) :
    (applyOp r op)._stop_signaled = true := by
  cases op with
  | stop => rfl
  | trigger_listen => exact h
  | trigger_ambient_noise_adjustment => exact h
  | adjust_ambient_noise t => exact h
  | listen af spb w e c b =>
      show (listen r af spb w e c b).1._stop_signaled = true
      simp only [listen]
      rw [if_pos (show ({ r with _listen_triggered := false} :
        ResponsiveRecognizer)._stop_signaled = true from h)]
      exact h

/-- `_stop_signaled` stays true across any sequence of operations. -/
theorem foldl_preserves_stop (ops : List Op) :
    ∀ r : ResponsiveRecognizer, r._stop_signaled = true →
      (ops.foldl applyOp r)._stop_signaled = true := by
  induction ops with
  | nil => intro r h; exact h
  | cons op rest ih =>
      intro r h
      exact ih _ (applyOp_preserves_stop r op h)

/-- **C10.**  Stopping is permanent: once `stop()` has set
`_stop_signaled`, no sequence of subsequent operations (triggers,
ambient-noise adjustments, further `listen` calls) clears it, and every
subsequent `listen()` returns no phrase and emits no bus event. -/
theorem c10_stop_is_permanent (r : ResponsiveRecognizer) (ops : List Op)
    (audio_file_resolved : Bool) (sec_per_buffer : ℚ)
    (sample_width : Nat) (energyOf : Bytes → ℚ) (chunks : Nat → Bytes)
    (button : Nat → Bool) (hstop : r._stop_signaled = true) :
    (ops.foldl applyOp r)._stop_signaled = true ∧
    (listen (ops.foldl applyOp r) audio_file_resolved sec_per_buffer
        sample_width energyOf chunks button).2.audio = none ∧
    (listen (ops.foldl applyOp r) audio_file_resolved sec_per_buffer
        sample_width energyOf chunks button).2.events = [] := by
  have hs : (ops.foldl applyOp r)._stop_signaled = true :=
    foldl_preserves_stop ops r hstop
  refine ⟨hs, ?_, ?_⟩ <;>
  · simp only [listen]
    rw [if_pos (show ({ ops.foldl applyOp r with
        _listen_triggered := false} :
      ResponsiveRecognizer)._stop_signaled = true from hs)]

/-- **C10, witness.**  The statement on the stopped recognizer after a
later trigger, an ambient-noise recalibration and a `listen` call. -/
theorem c10_witness :
    (([Op.trigger_listen, Op.adjust_ambient_noise 100,
        Op.listen false 1 2 (fun _ => 0) (fun _ => []) (fun _ => false)]
          : List Op).foldl applyOp c8r)._stop_signaled = true ∧
    (listen (([Op.trigger_listen, Op.adjust_ambient_noise 100,
        Op.listen false 1 2 (fun _ => 0) (fun _ => []) (fun _ => false)]
          : List Op).foldl applyOp c8r) true 1 2 (fun _ => 0)
        (fun _ => []) (fun _ => false)).2.audio = none ∧
    (listen (([Op.trigger_listen, Op.adjust_ambient_noise 100,
        Op.listen false 1 2 (fun _ => 0) (fun _ => []) (fun _ => false)]
          : List Op).foldl applyOp c8r) true 1 2 (fun _ => 0)
        (fun _ => []) (fun _ => false)).2.events = [] :=
  c10_stop_is_permanent c8r
    [Op.trigger_listen, Op.adjust_ambient_noise 100,
      Op.listen false 1 2 (fun _ => 0) (fun _ => []) (fun _ => false)]
    true 1 2 (fun _ => 0) (fun _ => []) (fun _ => false) rfl

end MicModel
